import Mathlib

/-!
Verification of the gait-detection preprocessing core
(`src/preprocessing.py`, `src/read_data.py`).

The numeric pipeline is shallowly embedded in Lean: NumPy arrays become
`List`s, real-valued samples become `ℚ` (or `ℝ` where square roots occur),
Python `int()` / `round()` / slicing become explicit Lean functions that
mirror the Python semantics.  Each section names the source function it
embeds.
-/

/-! ## Python / NumPy primitives -/

/-- Python `int(q)`: truncation toward zero (for a rational, truncating
division of numerator by denominator). -/
def pyInt (q : ℚ) : ℤ := q.num.tdiv q.den

theorem pyInt_intCast (n : ℤ) : pyInt ((n : ℚ)) = n := by
  simp [pyInt, Int.tdiv_one]

theorem pyInt_zero : pyInt 0 = 0 := by
  simp [pyInt]

/-- ASCII lowering of one character, as Python `str.lower` does on ASCII text. -/
def pyCharLower (c : Char) : Char :=
  if 65 ≤ c.toNat ∧ c.toNat ≤ 90 then Char.ofNat (c.toNat + 32) else c

/-- Python `s.lower()` (ASCII fragment, which covers every mode string used). -/
def pyLower (s : String) : String := String.mk (s.data.map pyCharLower)

/-- NumPy `np.round`: round half to even (banker's rounding). -/
def npRound (q : ℚ) : ℤ :=
  if q - ⌊q⌋ < 1/2 then ⌊q⌋
  else if (1:ℚ)/2 < q - ⌊q⌋ then ⌊q⌋ + 1
  else if ⌊q⌋ % 2 = 0 then ⌊q⌋ else ⌊q⌋ + 1

/-- A 3-channel accelerometer sample (one row of the N×3 signal array). -/
abbrev Vec3 : Type := ℚ × ℚ × ℚ

/-! ## Synchronization Engine: `sync_data` (`src/read_data.py`, lines 186–202) -/

/-- Number of samples dropped from the front of the signal:
`np.maximum(0, acc_time_before_sync_event - label_time_before_sync_event)`
where `acc_time_before_sync_event = int(ACC_SAMPLE_RATE*sync_sec[1])` and
`label_time_before_sync_event = int(ACC_SAMPLE_RATE*sync_sec[0])`. -/
def sigDrop (syncSec : ℚ × ℚ) (rate : ℚ) : ℕ :=
  (max 0 (pyInt (rate * syncSec.2) - pyInt (rate * syncSec.1))).toNat

/-- Number of samples dropped from the front of the label and severity streams:
`video_first_index = np.maximum(0, label_time_before_sync_event - acc_time_before_sync_event)`. -/
def labDrop (syncSec : ℚ × ℚ) (rate : ℚ) : ℕ :=
  (max 0 (pyInt (rate * syncSec.1) - pyInt (rate * syncSec.2))).toNat

/-- Result record of `sync_data`: the four returned arrays. -/
structure SyncOutput where
  accData : List Vec3
  labelData : List ℤ
  choreaLabels : List ℤ
  timeData : List ℚ

/-- Embedding of `sync_data(acc_data, label_data, chorea_labels, sync_sec, ACC_SAMPLE_RATE)`
(`src/read_data.py`, lines 186–202).  `sync_sec = (video offset, sensor offset)` in
seconds; NumPy slicing `a[k:]` and `a[:m]` become `List.drop` / `List.take`. -/
def sync_data (accData : List Vec3) (labelData choreaLabels : List ℤ)
    (syncSec : ℚ × ℚ) (rate : ℚ) : SyncOutput :=
  let accTrimmed := accData.drop (sigDrop syncSec rate)
  let videoFirstIndex := labDrop syncSec rate
  let labelTrimmed := labelData.drop videoFirstIndex
  let choreaTrimmed := choreaLabels.drop videoFirstIndex
  let accFinal := accTrimmed.take labelTrimmed.length
  let videoFirstSec : ℚ := (videoFirstIndex : ℚ) / rate
  let timeData := (List.range labelTrimmed.length).map
    (fun i : ℕ => (i : ℚ) / rate + videoFirstSec)
  ⟨accFinal, labelTrimmed, choreaTrimmed, timeData⟩

theorem sync_data_acc_eq (accData : List Vec3) (labelData choreaLabels : List ℤ)
    (syncSec : ℚ × ℚ) (rate : ℚ) :
    (sync_data accData labelData choreaLabels syncSec rate).accData
      = (accData.drop (sigDrop syncSec rate)).take
          ((labelData.drop (labDrop syncSec rate)).length) := rfl

theorem sync_data_label_eq (accData : List Vec3) (labelData choreaLabels : List ℤ)
    (syncSec : ℚ × ℚ) (rate : ℚ) :
    (sync_data accData labelData choreaLabels syncSec rate).labelData
      = labelData.drop (labDrop syncSec rate) := rfl

theorem sync_data_chorea_eq (accData : List Vec3) (labelData choreaLabels : List ℤ)
    (syncSec : ℚ × ℚ) (rate : ℚ) :
    (sync_data accData labelData choreaLabels syncSec rate).choreaLabels
      = choreaLabels.drop (labDrop syncSec rate) := rfl

theorem sync_data_time_eq (accData : List Vec3) (labelData choreaLabels : List ℤ)
    (syncSec : ℚ × ℚ) (rate : ℚ) :
    (sync_data accData labelData choreaLabels syncSec rate).timeData
      = (List.range ((labelData.drop (labDrop syncSec rate)).length)).map
          (fun i : ℕ => (i : ℚ) / rate + ((labDrop syncSec rate : ℚ)) / rate) := rfl

theorem sync_data_time_length (accData : List Vec3) (labelData choreaLabels : List ℤ)
    (syncSec : ℚ × ℚ) (rate : ℚ) :
    (sync_data accData labelData choreaLabels syncSec rate).timeData.length
      = (labelData.drop (labDrop syncSec rate)).length := by
  rw [sync_data_time_eq, List.length_map, List.length_range]

/-! ### Theorems about `sync_data` -/

/-- C1 (counterexample): the spec claims all four `sync_data` outputs have identical
length on every input.  With a 1-sample signal, a 2-sample label stream and zero
anchors, the code never right-trims the label stream to the signal length, so the
signal output has length 1 while the label output has length 2. -/
theorem sync_data_equal_length_counterexample :
    ¬ ((sync_data [((0:ℚ), (0:ℚ), (0:ℚ))] [0, 0] [0, 0] (0, 0) 100).accData.length
        = (sync_data [((0:ℚ), (0:ℚ), (0:ℚ))] [0, 0] [0, 0] (0, 0) 100).labelData.length) := by
  have hs : sigDrop (0, 0) 100 = 0 := by simp [sigDrop, pyInt]
  have hl : labDrop (0, 0) 100 = 0 := by simp [labDrop, pyInt]
  rw [sync_data_acc_eq, sync_data_label_eq, hs, hl]
  simp

/-- C1 (amended): the label, severity and time outputs of `sync_data` always share one
length; the signal output has length `min (trimmed signal length) (that common length)`;
and whenever the trimmed signal is at least as long as the trimmed label stream, all
four outputs have identical length, bounded by `min` of the original lengths. -/
theorem sync_data_output_lengths (accData : List Vec3) (labelData choreaLabels : List ℤ)
    (syncSec : ℚ × ℚ) (rate : ℚ)
    (hc : choreaLabels.length = labelData.length) :
    (sync_data accData labelData choreaLabels syncSec rate).choreaLabels.length
      = (sync_data accData labelData choreaLabels syncSec rate).labelData.length ∧
    (sync_data accData labelData choreaLabels syncSec rate).timeData.length
      = (sync_data accData labelData choreaLabels syncSec rate).labelData.length ∧
    (sync_data accData labelData choreaLabels syncSec rate).accData.length
      = min (accData.length - sigDrop syncSec rate)
          ((sync_data accData labelData choreaLabels syncSec rate).labelData.length) ∧
    (labelData.length - labDrop syncSec rate ≤ accData.length - sigDrop syncSec rate →
      (sync_data accData labelData choreaLabels syncSec rate).accData.length
        = (sync_data accData labelData choreaLabels syncSec rate).labelData.length ∧
      (sync_data accData labelData choreaLabels syncSec rate).labelData.length
        ≤ min accData.length labelData.length) := by
  rw [sync_data_acc_eq, sync_data_label_eq, sync_data_chorea_eq, sync_data_time_length]
  simp only [List.length_drop, List.length_take]
  refine ⟨by omega, trivial, by omega, fun h => ⟨by omega, by omega⟩⟩

/-- Witness for `sync_data_output_lengths` at a concrete aligned input. -/
theorem sync_data_output_lengths_witness :
    (sync_data [((0:ℚ), (0:ℚ), (0:ℚ)), (0, 0, 0), (0, 0, 0)] [5, 6] [7, 8] (0, 0) 1).accData.length
      = (sync_data [((0:ℚ), (0:ℚ), (0:ℚ)), (0, 0, 0), (0, 0, 0)] [5, 6] [7, 8] (0, 0) 1).labelData.length ∧
    (sync_data [((0:ℚ), (0:ℚ), (0:ℚ)), (0, 0, 0), (0, 0, 0)] [5, 6] [7, 8] (0, 0) 1).labelData.length
      ≤ min ([((0:ℚ), (0:ℚ), (0:ℚ)), (0, 0, 0), (0, 0, 0)] : List Vec3).length ([5, 6] : List ℤ).length :=
  (sync_data_output_lengths [((0:ℚ), (0:ℚ), (0:ℚ)), (0, 0, 0), (0, 0, 0)] [5, 6] [7, 8]
    (0, 0) 1 (by simp)).2.2.2
    (by have hs : sigDrop (0, 0) 1 = 0 := by simp [sigDrop, pyInt]
        have hl : labDrop (0, 0) 1 = 0 := by simp [labDrop, pyInt]
        rw [hl, hs]; simp)

/-- C6: writing `d = signal anchor samples − label anchor samples`, `sync_data` drops
exactly the first `d` samples of the signal when `d > 0` (labels untouched), exactly
the first `|d|` samples of the label and severity streams when `d < 0` (signal not
left-trimmed), and each of the three outputs is a contiguous slice of its input. -/
theorem sync_data_trim (accData : List Vec3) (labelData choreaLabels : List ℤ)
    (syncSec : ℚ × ℚ) (rate : ℚ) (d : ℤ)
    (hd : d = pyInt (rate * syncSec.2) - pyInt (rate * syncSec.1)) :
    (0 < d →
      (sync_data accData labelData choreaLabels syncSec rate).accData
        = (accData.drop d.toNat).take labelData.length ∧
      (sync_data accData labelData choreaLabels syncSec rate).labelData = labelData ∧
      (sync_data accData labelData choreaLabels syncSec rate).choreaLabels = choreaLabels) ∧
    (d < 0 →
      (sync_data accData labelData choreaLabels syncSec rate).labelData
        = labelData.drop (-d).toNat ∧
      (sync_data accData labelData choreaLabels syncSec rate).choreaLabels
        = choreaLabels.drop (-d).toNat ∧
      (sync_data accData labelData choreaLabels syncSec rate).accData
        = accData.take (labelData.length - (-d).toNat)) ∧
    (∃ a b, (sync_data accData labelData choreaLabels syncSec rate).accData
        = (accData.drop a).take b) ∧
    (∃ a b, (sync_data accData labelData choreaLabels syncSec rate).labelData
        = (labelData.drop a).take b) ∧
    (∃ a b, (sync_data accData labelData choreaLabels syncSec rate).choreaLabels
        = (choreaLabels.drop a).take b) := by
  refine ⟨?_, ?_, ?_, ?_, ?_⟩
  · intro hpos
    have hs : sigDrop syncSec rate = d.toNat := by
      simp only [sigDrop, ← hd]; omega
    have hl : labDrop syncSec rate = 0 := by
      simp only [labDrop]; omega
    rw [sync_data_acc_eq, sync_data_label_eq, sync_data_chorea_eq, hs, hl]
    simp
  · intro hneg
    have hs : sigDrop syncSec rate = 0 := by
      simp only [sigDrop, ← hd]; omega
    have hl : labDrop syncSec rate = (-d).toNat := by
      simp only [labDrop]; omega
    rw [sync_data_acc_eq, sync_data_label_eq, sync_data_chorea_eq, hs, hl]
    simp
  · exact ⟨sigDrop syncSec rate, (labelData.drop (labDrop syncSec rate)).length,
      sync_data_acc_eq _ _ _ _ _⟩
  · refine ⟨labDrop syncSec rate, (labelData.drop (labDrop syncSec rate)).length, ?_⟩
    rw [sync_data_label_eq, List.take_length]
  · refine ⟨labDrop syncSec rate, (choreaLabels.drop (labDrop syncSec rate)).length, ?_⟩
    rw [sync_data_chorea_eq, List.take_length]

/-- Witness for `sync_data_trim`: signal anchor 2 s, label anchor 0 s at 1 Hz gives
`d = 2 > 0`, so the first two signal samples are dropped and the labels are unchanged. -/
theorem sync_data_trim_witness :
    (sync_data [((1:ℚ), (0:ℚ), (0:ℚ)), (2, 0, 0), (3, 0, 0), (4, 0, 0), (5, 0, 0)]
        [0, 1] [2, 3] (0, 2) 1).accData
      = (([((1:ℚ), (0:ℚ), (0:ℚ)), (2, 0, 0), (3, 0, 0), (4, 0, 0), (5, 0, 0)] : List Vec3).drop
          (2:ℤ).toNat).take ([0, 1] : List ℤ).length ∧
    (sync_data [((1:ℚ), (0:ℚ), (0:ℚ)), (2, 0, 0), (3, 0, 0), (4, 0, 0), (5, 0, 0)]
        [0, 1] [2, 3] (0, 2) 1).labelData = [0, 1] ∧
    (sync_data [((1:ℚ), (0:ℚ), (0:ℚ)), (2, 0, 0), (3, 0, 0), (4, 0, 0), (5, 0, 0)]
        [0, 1] [2, 3] (0, 2) 1).choreaLabels = [2, 3] := by
  have hd : (2 : ℤ) = pyInt ((1:ℚ) * (0, (2:ℚ)).2) - pyInt ((1:ℚ) * (0, (2:ℚ)).1) := by
    norm_num
    rw [show ((2:ℚ)) = (((2:ℤ)):ℚ) by norm_num, pyInt_intCast, pyInt_zero]
    decide
  exact (sync_data_trim [((1:ℚ), (0:ℚ), (0:ℚ)), (2, 0, 0), (3, 0, 0), (4, 0, 0), (5, 0, 0)]
    [0, 1] [2, 3] (0, 2) 1 2 hd).1 (by norm_num)

/-- C9: on already-aligned input (equal signal and label lengths, both anchor offsets
zero) `sync_data` returns the signal, category and severity streams unchanged. -/
theorem sync_data_identity (accData : List Vec3) (labelData choreaLabels : List ℤ)
    (rate : ℚ) (hlen : accData.length = labelData.length) :
    (sync_data accData labelData choreaLabels (0, 0) rate).accData = accData ∧
    (sync_data accData labelData choreaLabels (0, 0) rate).labelData = labelData ∧
    (sync_data accData labelData choreaLabels (0, 0) rate).choreaLabels = choreaLabels := by
  have hs : sigDrop (0, 0) rate = 0 := by simp [sigDrop, pyInt]
  have hl : labDrop (0, 0) rate = 0 := by simp [labDrop, pyInt]
  refine ⟨?_, ?_, ?_⟩
  · rw [sync_data_acc_eq, hs, hl]
    simp [← hlen, List.take_length]
  · rw [sync_data_label_eq, hl]; simp
  · rw [sync_data_chorea_eq, hl]; simp

/-- Witness for `sync_data_identity` on a concrete aligned pair of streams. -/
theorem sync_data_identity_witness :
    (sync_data [((1:ℚ), (2:ℚ), (3:ℚ)), (4, 5, 6)] [0, 1] [2, 3] (0, 0) 100).accData
      = [((1:ℚ), (2:ℚ), (3:ℚ)), (4, 5, 6)] ∧
    (sync_data [((1:ℚ), (2:ℚ), (3:ℚ)), (4, 5, 6)] [0, 1] [2, 3] (0, 0) 100).labelData
      = [0, 1] ∧
    (sync_data [((1:ℚ), (2:ℚ), (3:ℚ)), (4, 5, 6)] [0, 1] [2, 3] (0, 0) 100).choreaLabels
      = [2, 3] :=
  sync_data_identity [((1:ℚ), (2:ℚ), (3:ℚ)), (4, 5, 6)] [0, 1] [2, 3] 100 (by simp)

/-! ## NumPy slicing and windowing primitives used by `data_windowing` -/

/-- Semantics of the NumPy strided slice `a[::s]`: the elements at indices
`0, s, 2·s, …` below `a`'s length, which are `⌈len/s⌉` many. -/
def everyNth {α : Type} [Inhabited α] (s : ℕ) (xs : List α) : List α :=
  (List.range ((xs.length + s - 1) / s)).map (fun i => xs.getD (i * s) default)

theorem everyNth_length {α : Type} [Inhabited α] (s : ℕ) (xs : List α) :
    (everyNth s xs).length = (xs.length + s - 1) / s := by
  simp [everyNth]

theorem ceil_bound (s L i : ℕ) (hs : 1 ≤ s) (hi : i < (L + s - 1) / s) : i * s < L := by
  have h1 : i + 1 ≤ (L + s - 1) / s := hi
  have h2 : (i + 1) * s ≤ L + s - 1 :=
    (Nat.le_div_iff_mul_le (by omega : 0 < s)).mp h1
  have h3 : (i + 1) * s = i * s + s := by rw [Nat.succ_mul]
  omega

theorem everyNth_getElem? {α : Type} [Inhabited α] (s : ℕ) (xs : List α) (i : ℕ)
    (hs : 1 ≤ s) (hi : i < (xs.length + s - 1) / s) :
    (everyNth s xs)[i]? = xs[i * s]? := by
  have hlt : i * s < xs.length := ceil_bound s xs.length i hs hi
  simp only [everyNth, List.getElem?_map, List.getElem?_range hi, Option.map_some']
  rw [List.getD_eq_getElem xs default hlt, List.getElem?_eq_getElem hlt]

/-- Semantics of NumPy `sliding_window_view(a, w, 0)`: all length-`w` contiguous
windows, starting at indices `0 … len−w`. -/
def slidingWindows {α : Type} (w : ℕ) (xs : List α) : List (List α) :=
  (List.range (xs.length + 1 - w)).map (fun j => (xs.drop j).take w)

theorem slidingWindows_length {α : Type} (w : ℕ) (xs : List α) :
    (slidingWindows w xs).length = xs.length + 1 - w := by
  simp [slidingWindows]

theorem slidingWindows_getElem? {α : Type} (w : ℕ) (xs : List α) (j : ℕ)
    (hj : j < xs.length + 1 - w) :
    (slidingWindows w xs)[j]? = some ((xs.drop j).take w) := by
  simp only [slidingWindows, List.getElem?_map, List.getElem?_range hj, Option.map_some']

theorem windows_getElem? {α : Type} [Inhabited (List α)] (xs : List α) (W O i : ℕ)
    (hO : O < W) (hW : W ≤ xs.length) (hi : i < (xs.length - W) / (W - O) + 1) :
    (everyNth (W - O) (slidingWindows W xs))[i]? = some ((xs.drop (i * (W - O))).take W) := by
  have hs : 1 ≤ W - O := by omega
  have hlen : (slidingWindows W xs).length = xs.length + 1 - W := slidingWindows_length W xs
  have hnum : ((slidingWindows W xs).length + (W - O) - 1) / (W - O)
      = (xs.length - W) / (W - O) + 1 := by
    rw [hlen]
    have : xs.length + 1 - W + (W - O) - 1 = (xs.length - W) + (W - O) := by omega
    rw [this, Nat.add_div_right _ (by omega)]
  rw [everyNth_getElem? (W - O) (slidingWindows W xs) i hs (by rw [hnum]; exact hi)]
  apply slidingWindows_getElem?
  have hb : i ≤ (xs.length - W) / (W - O) := by omega
  have hmul : i * (W - O) ≤ ((xs.length - W) / (W - O)) * (W - O) :=
    Nat.mul_le_mul_right _ hb
  have hd : ((xs.length - W) / (W - O)) * (W - O) ≤ xs.length - W :=
    Nat.div_mul_le_self _ _
  omega

theorem windows_count {α : Type} [Inhabited (List α)] (xs : List α) (W O : ℕ)
    (hO : O < W) (hW : W ≤ xs.length) :
    (everyNth (W - O) (slidingWindows W xs)).length = (xs.length - W) / (W - O) + 1 := by
  rw [everyNth_length, slidingWindows_length]
  have : xs.length + 1 - W + (W - O) - 1 = (xs.length - W) + (W - O) := by omega
  rw [this, Nat.add_div_right _ (by omega)]

/-- Semantics of `scipy.stats.mode` on one row: the per-row count of each value's
occurrences. -/
def maxCount (w : List ℤ) : ℕ := (w.map (fun x => w.count x)).foldr max 0

/-- Semantics of `scipy.stats.mode(w)[0]`: the most frequent value; when several
values reach the maximal count, the smallest of them is returned. -/
def listMode (w : List ℤ) : ℤ :=
  match w.filter (fun x => w.count x == maxCount w) with
  | [] => 0
  | y :: ys => ys.foldl (fun a b => if b < a then b else a) y

/-- Per-window count of valid severity samples: `np.sum(windowed_chorea >= 0, axis=1)`
(`src/preprocessing.py`, line 168). -/
def choreaValidCount (w : List ℤ) : ℕ := (w.filter (fun x => 0 ≤ x)).length

/-- Per-window masked severity sum:
`np.sum(windowed_chorea*(windowed_chorea>=0), axis=1)` (`src/preprocessing.py`, line 169). -/
def choreaMaskedSum (w : List ℤ) : ℤ :=
  (w.map (fun x => x * (if 0 ≤ x then 1 else 0))).sum

theorem choreaMaskedSum_eq_filter_sum (w : List ℤ) :
    choreaMaskedSum w = (w.filter (fun x => 0 ≤ x)).sum := by
  induction w with
  | nil => rfl
  | cons x rest ih =>
    by_cases hx : 0 ≤ x
    · simp [choreaMaskedSum, List.filter_cons, hx] at ih ⊢
      omega
    · simp [choreaMaskedSum, List.filter_cons, hx] at ih ⊢
      exact ih

/-- Semantics of the Python slice assignment `a[k:] = 0` on a NumPy integer array,
including Python's negative-index convention (`k < 0` counts from the end). -/
def zeroFromPy (k : ℤ) (xs : List ℤ) : List ℤ :=
  let start : ℕ := if 0 ≤ k then min k.toNat xs.length else xs.length - (-k).toNat
  xs.take start ++ List.replicate (xs.length - start) 0

/-! ## Windowing/Segmentation Engine: `data_windowing` (`src/preprocessing.py`, lines 130–179) -/

/-- Result record of a successful `data_windowing` call: windowed signal, reduced
category labels, reduced severity labels, the inclusion mask it returns, and the
window count. -/
structure WindowingOutput where
  windowedData : List (List Vec3)
  windowedLabels : List ℤ
  windowedChorea : List ℚ
  inclusionIdx : List ℤ
  numWin : ℕ

/-- Embedding of `data_windowing(data, labels, chorea, window_size, window_overlap, std_idx)`
(`src/preprocessing.py`, lines 130–179), including its error paths, in source order:
`non_overlap = window_size - window_overlap = 0` makes `data.shape[0] // non_overlap`
(line 157) raise ZeroDivisionError; a window longer than a stream makes
`sliding_window_view` (lines 162–164) raise ValueError; and after the `.squeeze()` of
lines 163–164 the windowed label/severity arrays are 1-D whenever exactly one window
is produced or `window_size = 1`, so the axis-1 reductions — `np.sum(..., axis=1)` on
the severity windows (line 168) first, `mode(..., axis=1)` on the label windows
(line 173) otherwise — raise AxisError.  On the surviving inputs (at least two
windows, `window_size ≥ 2`) the `.squeeze()` is a no-op on the `(numWin, W)` arrays
and the reductions proceed: severity windows by validity-majority mean, label windows
by `scipy.stats.mode`; `inclusion_idx = std_idx[std_idx == 1]` is a boolean-mask
(advanced-indexing) copy whose tail is zeroed in place. -/
def data_windowing (data : List Vec3) (labels chorea : List ℤ)
    (windowSize windowOverlap : ℕ) (stdIdx : List ℤ) : Except String WindowingOutput :=
  let nonOverlap := windowSize - windowOverlap
  if nonOverlap = 0 then
    Except.error "ZeroDivisionError: integer division or modulo by zero"
  else
    let inclusionFiltered := stdIdx.filter (fun x => x == 1)
    let upperLimit := data.length / nonOverlap * nonOverlap
    let inclusionIdx := zeroFromPy ((upperLimit : ℤ) - (windowOverlap : ℤ)) inclusionFiltered
    if data.length < windowSize ∨ labels.length < windowSize ∨ chorea.length < windowSize then
      Except.error "ValueError: window shape cannot be larger than input array shape"
    else
      let windowedData := everyNth nonOverlap (slidingWindows windowSize data)
      let windowedLabelsRaw := everyNth nonOverlap (slidingWindows windowSize labels)
      let windowedChoreaRaw := everyNth nonOverlap (slidingWindows windowSize chorea)
      let numWin := windowedLabelsRaw.length
      if windowedChoreaRaw.length = 1 ∨ windowSize = 1 then
        Except.error "AxisError: axis 1 is out of bounds for array of dimension 1"
      else if windowedLabelsRaw.length = 1 then
        Except.error "AxisError: axis 1 is out of bounds for array of dimension 1"
      else
        let choreaValid := windowedChoreaRaw.map choreaValidCount
        let choreaSum := windowedChoreaRaw.map choreaMaskedSum
        let windowedChorea := (List.range choreaSum.length).map (fun i =>
            if ((windowSize : ℚ) / 2 < ((choreaValid.getD i 0 : ℕ) : ℚ))
            then ((choreaSum.getD i 0 : ℤ) : ℚ) / ((choreaValid.getD i 0 : ℕ) : ℚ)
            else -1)
        let windowedLabels := windowedLabelsRaw.map listMode
        Except.ok ⟨windowedData, windowedLabels, windowedChorea, inclusionIdx, numWin⟩

/-- State of the caller-owned `std_idx` array after a `data_windowing` call, whether
it returns or raises.  The selection `std_idx[std_idx == 1]` is NumPy boolean-mask
(advanced) indexing, which allocates a new array; the in-place tail zeroing
`inclusion_idx[upper_limit - window_overlap:] = 0` therefore writes into that copy,
and the caller's array is left exactly as it was passed in. -/
def data_windowing_std_idx_after (data : List Vec3) (labels chorea : List ℤ)
    (windowSize windowOverlap : ℕ) (stdIdx : List ℤ) : List ℤ := stdIdx

/-- Successful execution of `data_windowing`: when the stride is positive, the window
fits every stream, the window length is at least 2 and at least two windows fit
(`W + stride ≤ N`), every guard is passed and the explicit output record is returned. -/
theorem data_windowing_succeeds (data : List Vec3) (labels chorea : List ℤ)
    (W O : ℕ) (stdIdx : List ℤ)
    (hO : O < W) (hW2 : 2 ≤ W) (hN : W + (W - O) ≤ data.length)
    (hl : labels.length = data.length) (hc : chorea.length = data.length) :
    data_windowing data labels chorea W O stdIdx = Except.ok
      ⟨everyNth (W - O) (slidingWindows W data),
       (everyNth (W - O) (slidingWindows W labels)).map listMode,
       (List.range (((everyNth (W - O) (slidingWindows W chorea)).map choreaMaskedSum).length)).map
         (fun i =>
           if ((W : ℚ) / 2
               < ((((everyNth (W - O) (slidingWindows W chorea)).map choreaValidCount).getD i 0 : ℕ) : ℚ))
           then ((((everyNth (W - O) (slidingWindows W chorea)).map choreaMaskedSum).getD i 0 : ℤ) : ℚ)
               / ((((everyNth (W - O) (slidingWindows W chorea)).map choreaValidCount).getD i 0 : ℕ) : ℚ)
           else -1),
       zeroFromPy (((data.length / (W - O) * (W - O) : ℕ) : ℤ) - (O : ℤ))
         (stdIdx.filter (fun x => x == 1)),
       (everyNth (W - O) (slidingWindows W labels)).length⟩ := by
  have h0 : ¬(W - O = 0) := by omega
  have h1 : ¬(data.length < W ∨ labels.length < W ∨ chorea.length < W) := by omega
  have hcc : (everyNth (W - O) (slidingWindows W chorea)).length
      = (data.length - W) / (W - O) + 1 := by
    rw [windows_count chorea W O hO (by omega), hc]
  have hll : (everyNth (W - O) (slidingWindows W labels)).length
      = (data.length - W) / (W - O) + 1 := by
    rw [windows_count labels W O hO (by omega), hl]
  have hge1 : 1 ≤ (data.length - W) / (W - O) :=
    (Nat.one_le_div_iff (by omega)).mpr (by omega)
  have h2 : ¬((everyNth (W - O) (slidingWindows W chorea)).length = 1 ∨ W = 1) := by
    rw [hcc]
    rintro (h | h) <;> omega
  have h3 : ¬((everyNth (W - O) (slidingWindows W labels)).length = 1) := by
    rw [hll]
    intro h
    omega
  simp only [data_windowing, if_neg h0, if_neg h1, if_neg h2, if_neg h3]

/-- Inversion of a successful `data_windowing` call: every guard was passed (positive
stride, the window fits every stream, window length at least 2, more than one window)
and the output is the explicit record. -/
theorem data_windowing_ok_cases (data : List Vec3) (labels chorea : List ℤ)
    (W O : ℕ) (stdIdx : List ℤ) (out : WindowingOutput)
    (hok : data_windowing data labels chorea W O stdIdx = Except.ok out) :
    O < W ∧ 2 ≤ W ∧ W ≤ data.length ∧ W ≤ labels.length ∧ W ≤ chorea.length ∧
    (everyNth (W - O) (slidingWindows W chorea)).length ≠ 1 ∧
    (everyNth (W - O) (slidingWindows W labels)).length ≠ 1 ∧
    out = ⟨everyNth (W - O) (slidingWindows W data),
      (everyNth (W - O) (slidingWindows W labels)).map listMode,
      (List.range (((everyNth (W - O) (slidingWindows W chorea)).map choreaMaskedSum).length)).map
        (fun i =>
          if ((W : ℚ) / 2
              < ((((everyNth (W - O) (slidingWindows W chorea)).map choreaValidCount).getD i 0 : ℕ) : ℚ))
          then ((((everyNth (W - O) (slidingWindows W chorea)).map choreaMaskedSum).getD i 0 : ℤ) : ℚ)
              / ((((everyNth (W - O) (slidingWindows W chorea)).map choreaValidCount).getD i 0 : ℕ) : ℚ)
          else -1),
      zeroFromPy (((data.length / (W - O) * (W - O) : ℕ) : ℤ) - (O : ℤ))
        (stdIdx.filter (fun x => x == 1)),
      (everyNth (W - O) (slidingWindows W labels)).length⟩ := by
  simp only [data_windowing] at hok
  by_cases h0 : W - O = 0
  · rw [if_pos h0] at hok; simp at hok
  rw [if_neg h0] at hok
  by_cases h1 : data.length < W ∨ labels.length < W ∨ chorea.length < W
  · rw [if_pos h1] at hok; simp at hok
  rw [if_neg h1] at hok
  by_cases h2 : (everyNth (W - O) (slidingWindows W chorea)).length = 1 ∨ W = 1
  · rw [if_pos h2] at hok; simp at hok
  rw [if_neg h2] at hok
  by_cases h3 : (everyNth (W - O) (slidingWindows W labels)).length = 1
  · rw [if_pos h3] at hok; simp at hok
  rw [if_neg h3] at hok
  injection hok with h
  push_neg at h1 h2
  exact ⟨by omega, by omega, by omega, by omega, by omega, h2.1, h3, h.symm⟩

/-! ### Theorems about `data_windowing` windows and labels -/

/-- C2 (counterexample): the spec claims `data_windowing` produces `floor(N/stride)`
windows.  With `N = 3`, `W = 2`, `O = 1` the call completes (two windows, no squeeze
collapse): `sliding_window_view` yields `N − W + 1 = 2` windows and `[::1]` keeps
both, so `numWin = 2`, while `floor(N/stride) = 3`. -/
theorem data_windowing_count_counterexample :
    (data_windowing [((0:ℚ), (0:ℚ), (0:ℚ)), ((0:ℚ), (0:ℚ), (0:ℚ)), ((0:ℚ), (0:ℚ), (0:ℚ))]
        [0, 1, 0] [0, 1, 2] 2 1 [1, 1, 1]).toOption.map (fun o => o.numWin)
      ≠ some (([((0:ℚ), (0:ℚ), (0:ℚ)), ((0:ℚ), (0:ℚ), (0:ℚ)), ((0:ℚ), (0:ℚ), (0:ℚ))] :
          List Vec3).length / (2 - 1)) := by
  decide

/-- C2 (amended): with `stride = W − O`, `0 ≤ O < W`, `W ≥ 2` and at least two windows
fitting (`W + stride ≤ N` — with fewer the squeezed arrays go 1-D and the call raises
AxisError instead of returning), `data_windowing` returns, produces
`floor((N − W)/stride) + 1` windows (not `floor(N/stride)`), and window `i` starts at
index `i·stride` and spans exactly `W` consecutive samples. -/
theorem data_windowing_count (data : List Vec3) (labels chorea : List ℤ)
    (W O : ℕ) (stdIdx : List ℤ) (hO : O < W) (hW2 : 2 ≤ W)
    (hN : W + (W - O) ≤ data.length)
    (hl : labels.length = data.length) (hc : chorea.length = data.length) :
    ∃ out, data_windowing data labels chorea W O stdIdx = Except.ok out ∧
      out.numWin = (data.length - W) / (W - O) + 1 ∧
      out.windowedData.length = out.numWin ∧
      ∀ i < out.numWin,
        out.windowedData[i]? = some ((data.drop (i * (W - O))).take W) ∧
        ((data.drop (i * (W - O))).take W).length = W := by
  refine ⟨_, data_windowing_succeeds data labels chorea W O stdIdx hO hW2 hN hl hc,
    ?_, ?_, ?_⟩
  · show (everyNth (W - O) (slidingWindows W labels)).length = _
    rw [windows_count labels W O hO (by omega), hl]
  · show (everyNth (W - O) (slidingWindows W data)).length
        = (everyNth (W - O) (slidingWindows W labels)).length
    rw [windows_count data W O hO (by omega), windows_count labels W O hO (by omega), hl]
  · intro i hi
    have hi' : i < (everyNth (W - O) (slidingWindows W labels)).length := hi
    rw [windows_count labels W O hO (by omega), hl] at hi'
    refine ⟨?_, ?_⟩
    · show (everyNth (W - O) (slidingWindows W data))[i]? = _
      exact windows_getElem? data W O i hO (by omega) hi'
    · have hb : i ≤ (data.length - W) / (W - O) := by omega
      have hmul : i * (W - O) ≤ ((data.length - W) / (W - O)) * (W - O) :=
        Nat.mul_le_mul_right _ hb
      have hd : ((data.length - W) / (W - O)) * (W - O) ≤ data.length - W :=
        Nat.div_mul_le_self _ _
      simp only [List.length_take, List.length_drop]
      omega

/-- Witness for `data_windowing_count`: 4 samples, window 2, overlap 1 give a
successful call with `(4−2)/1 + 1 = 3` windows, and window 1 starts at index 1. -/
theorem data_windowing_count_witness :
    (data_windowing (List.replicate 4 (((0:ℚ), (0:ℚ), (0:ℚ)))) [0, 1, 0, 1] [0, 1, 2, 3]
        2 1 [1, 1, 1, 1]).map (fun o => o.numWin) = Except.ok 3 ∧
    (data_windowing (List.replicate 4 (((0:ℚ), (0:ℚ), (0:ℚ)))) [0, 1, 0, 1] [0, 1, 2, 3]
        2 1 [1, 1, 1, 1]).map (fun o => o.windowedData[1]?)
      = Except.ok (some (((List.replicate 4 (((0:ℚ), (0:ℚ), (0:ℚ)))).drop (1 * (2 - 1))).take 2)) := by
  obtain ⟨out, hok, hnum, hlen, hwin⟩ := data_windowing_count
    (List.replicate 4 (((0:ℚ), (0:ℚ), (0:ℚ)))) [0, 1, 0, 1] [0, 1, 2, 3] 2 1 [1, 1, 1, 1]
    (by decide) (by decide) (by decide) (by decide) (by decide)
  rw [hok]
  simp only [Except.map]
  constructor
  · exact congrArg Except.ok (hnum.trans (by decide))
  · exact congrArg Except.ok (hwin 1 (by rw [hnum]; decide)).1

/-- Modelled from the spec: the per-window category reduction the spec describes —
the statistical mode over the window's codes with the reserved code −9 excluded from
the vote, ties broken by the lowest code value. -/
def specCategoryMode (w : List ℤ) : ℤ := listMode (w.filter (fun x => x ≠ -9))

/-- C3 (counterexample): the spec claims the reserved code −9 is excluded from the
per-window majority vote.  With labels `[−9, −9, 1, 0]`, `W = 3`, `O = 2` the call
completes (two windows) and the first produced window `[−9, −9, 1]` gets label −9
from `scipy.stats.mode`, while the spec's reduction (excluding −9) would give 1. -/
theorem data_windowing_mode_counterexample :
    (data_windowing (List.replicate 4 (((0:ℚ), (0:ℚ), (0:ℚ)))) [-9, -9, 1, 0] [0, 0, 0, 0]
        3 2 [1, 1, 1, 1]).toOption.map (fun o => o.windowedLabels[0]?)
      ≠ some (some (specCategoryMode ((([-9, -9, 1, 0] : List ℤ).drop (0 * (3 - 2))).take 3))) := by
  decide

/-- C3 (amended): for every window a returning `data_windowing` call produces, the
reduced category label is `scipy.stats.mode` of all `W` per-sample codes in that
window — ties broken by the lowest code value, but with the reserved code −9
participating in the vote like any other code, not excluded. -/
theorem data_windowing_mode_label (data : List Vec3) (labels chorea : List ℤ)
    (W O : ℕ) (stdIdx : List ℤ) :
    ∀ out, data_windowing data labels chorea W O stdIdx = Except.ok out →
    ∀ i < out.numWin,
      out.windowedLabels[i]? = some (listMode ((labels.drop (i * (W - O))).take W)) := by
  intro out hok i hi
  obtain ⟨hO, hW2, hWd, hWl, hWc, hc1, hl1, hout⟩ :=
    data_windowing_ok_cases data labels chorea W O stdIdx out hok
  subst hout
  have hi' : i < (everyNth (W - O) (slidingWindows W labels)).length := hi
  rw [windows_count labels W O hO hWl] at hi'
  show ((everyNth (W - O) (slidingWindows W labels)).map listMode)[i]? = _
  rw [List.getElem?_map, windows_getElem? labels W O i hO hWl hi', Option.map_some']

/-- Witness for `data_windowing_mode_label`: a successful two-window call whose first
window `[5, 7, 5]` reduces to its mode 5. -/
theorem data_windowing_mode_label_witness :
    (data_windowing (List.replicate 4 (((0:ℚ), (0:ℚ), (0:ℚ)))) [5, 7, 5, 0] [0, 0, 0, 0]
        3 2 [1, 1, 1, 1]).map (fun o => o.windowedLabels[0]?)
      = Except.ok (some (listMode ((([5, 7, 5, 0] : List ℤ).drop (0 * (3 - 2))).take 3))) := by
  have hs := data_windowing_succeeds (List.replicate 4 (((0:ℚ), (0:ℚ), (0:ℚ)))) [5, 7, 5, 0]
    [0, 0, 0, 0] 3 2 [1, 1, 1, 1] (by decide) (by decide) (by decide) (by decide) (by decide)
  have h := data_windowing_mode_label (List.replicate 4 (((0:ℚ), (0:ℚ), (0:ℚ)))) [5, 7, 5, 0]
    [0, 0, 0, 0] 3 2 [1, 1, 1, 1] _ hs 0 (by decide)
  rw [hs]
  simp only [Except.map]
  exact congrArg Except.ok h

/-! ### Severity reduction (C4) -/

/-- Valid severity samples of a window: those carrying a non-negative code. -/
def validSev (w : List ℤ) : List ℤ := w.filter (fun x => 0 ≤ x)

theorem choreaValidCount_eq (w : List ℤ) : choreaValidCount w = (validSev w).length := rfl

/-- C4: for every window a returning `data_windowing` call produces (the `W` severity
codes starting at `i·stride`), when the count of non-negative codes strictly exceeds
`W/2` the reduced severity is the exact arithmetic mean of those non-negative values;
otherwise it is exactly −1, even if some valid samples exist. -/
theorem data_windowing_severity (data : List Vec3) (labels chorea : List ℤ)
    (W O : ℕ) (stdIdx : List ℤ)
    (hl : labels.length = data.length) (hc : chorea.length = data.length) :
    ∀ out, data_windowing data labels chorea W O stdIdx = Except.ok out →
    ∀ i < out.numWin, ∀ w, w = (chorea.drop (i * (W - O))).take W →
      (((W : ℚ) / 2 < ((validSev w).length : ℚ) →
        out.windowedChorea[i]? = some (((validSev w).sum : ℚ) / ((validSev w).length : ℚ))) ∧
      (¬ ((W : ℚ) / 2 < ((validSev w).length : ℚ)) →
        out.windowedChorea[i]? = some (-1))) := by
  intro out hok i hi w hw
  obtain ⟨hO, hW2, hWd, hWl, hWc, hc1, hl1, hout⟩ :=
    data_windowing_ok_cases data labels chorea W O stdIdx out hok
  subst hout
  have hi' : i < (everyNth (W - O) (slidingWindows W labels)).length := hi
  rw [windows_count labels W O hO hWl, hl] at hi'
  have hic : i < (chorea.length - W) / (W - O) + 1 := by
    rw [hc]; exact hi'
  have hwin : (everyNth (W - O) (slidingWindows W chorea))[i]? = some w := by
    rw [hw]; exact windows_getElem? chorea W O i hO hWc hic
  have hcnt : ((everyNth (W - O) (slidingWindows W chorea)).map choreaValidCount).getD i 0
      = choreaValidCount w := by
    rw [List.getD_eq_getElem?_getD, List.getElem?_map, hwin, Option.map_some']
    rfl
  have hsum : ((everyNth (W - O) (slidingWindows W chorea)).map choreaMaskedSum).getD i 0
      = choreaMaskedSum w := by
    rw [List.getD_eq_getElem?_getD, List.getElem?_map, hwin, Option.map_some']
    rfl
  have hilen : i < ((everyNth (W - O) (slidingWindows W chorea)).map choreaMaskedSum).length := by
    rw [List.length_map, windows_count chorea W O hO hWc]
    exact hic
  have hmain : ((List.range
        (((everyNth (W - O) (slidingWindows W chorea)).map choreaMaskedSum).length)).map
      (fun j =>
        if ((W : ℚ) / 2
            < ((((everyNth (W - O) (slidingWindows W chorea)).map choreaValidCount).getD j 0 : ℕ) : ℚ))
        then ((((everyNth (W - O) (slidingWindows W chorea)).map choreaMaskedSum).getD j 0 : ℤ) : ℚ)
            / ((((everyNth (W - O) (slidingWindows W chorea)).map choreaValidCount).getD j 0 : ℕ) : ℚ)
        else -1))[i]?
      = some (if ((W : ℚ) / 2 < ((choreaValidCount w : ℕ) : ℚ))
          then ((choreaMaskedSum w : ℤ) : ℚ) / ((choreaValidCount w : ℕ) : ℚ)
          else -1) := by
    rw [List.getElem?_map, List.getElem?_range hilen, Option.map_some', hcnt, hsum]
  constructor
  · intro hgt
    refine Eq.trans hmain ?_
    rw [if_pos (by rw [choreaValidCount_eq]; exact_mod_cast hgt)]
    rw [choreaValidCount_eq, choreaMaskedSum_eq_filter_sum]
    rfl
  · intro hle
    refine Eq.trans hmain ?_
    rw [if_neg (by rw [choreaValidCount_eq]; exact_mod_cast hle)]

/-- Witness for `data_windowing_severity`: a successful three-window call whose first
window `[1, 3, −1]` has 2 valid samples out of 3 (a strict majority), so its severity
is the mean `(1+3)/2 = 2`. -/
theorem data_windowing_severity_witness :
    (data_windowing (List.replicate 5 (((0:ℚ), (0:ℚ), (0:ℚ)))) [0, 0, 0, 0, 0] [1, 3, -1, 0, 2]
        3 2 [1, 1, 1, 1, 1]).map (fun o => o.windowedChorea[0]?)
      = Except.ok (some (((validSev [1, 3, -1]).sum : ℚ) / ((validSev [1, 3, -1]).length : ℚ))) := by
  have hs := data_windowing_succeeds (List.replicate 5 (((0:ℚ), (0:ℚ), (0:ℚ)))) [0, 0, 0, 0, 0]
    [1, 3, -1, 0, 2] 3 2 [1, 1, 1, 1, 1] (by decide) (by decide) (by decide) (by decide) (by decide)
  have h := (data_windowing_severity (List.replicate 5 (((0:ℚ), (0:ℚ), (0:ℚ)))) [0, 0, 0, 0, 0]
    [1, 3, -1, 0, 2] 3 2 [1, 1, 1, 1, 1] (by decide) (by decide) _ hs 0 (by decide)
    [1, 3, -1] (by decide)).1
    (by rw [show (validSev [1, 3, -1]).length = 2 from rfl]; norm_num)
  rw [hs]
  simp only [Except.map]
  exact congrArg Except.ok h

/-! ### Inclusion-mask frame behaviour (C8) -/

theorem zeroFromPy_length (k : ℤ) (xs : List ℤ) : (zeroFromPy k xs).length = xs.length := by
  simp only [zeroFromPy, List.length_append, List.length_take, List.length_replicate]
  split <;> omega

theorem zeroFromPy_getElem?_lt (k : ℤ) (xs : List ℤ) (j : ℕ) (hk : 0 ≤ k)
    (hj : j < min k.toNat xs.length) :
    (zeroFromPy k xs)[j]? = xs[j]? := by
  simp only [zeroFromPy, if_pos hk]
  rw [List.getElem?_append_left (by simp only [List.length_take]; omega)]
  exact List.getElem?_take_of_lt (by omega)

theorem zeroFromPy_getElem?_ge (k : ℤ) (xs : List ℤ) (j : ℕ) (hk : 0 ≤ k)
    (hj1 : min k.toNat xs.length ≤ j) (hj2 : j < xs.length) :
    (zeroFromPy k xs)[j]? = some 0 := by
  simp only [zeroFromPy, if_pos hk]
  rw [List.getElem?_append_right (by simp only [List.length_take]; omega)]
  simp only [List.length_take, List.getElem?_replicate]
  rw [if_pos (by omega)]

/-- C8 (counterexample): the spec claims `data_windowing` mutates the caller's
`std_idx` in place, zeroing its tail from `upper_limit − overlap` on.  With 4 samples,
`W = 2`, `O = 1` (`upper_limit = 4`, cut 3) the claim predicts the caller's array
becomes `[1, 1, 1, 0]`; since `std_idx[std_idx == 1]` is a NumPy advanced-indexing
copy, the caller's array is still `[1, 1, 1, 1]` after the call. -/
theorem std_idx_mutation_counterexample :
    data_windowing_std_idx_after (List.replicate 4 (((0:ℚ), (0:ℚ), (0:ℚ))))
        [0, 0, 0, 0] [0, 0, 0, 0] 2 1 [1, 1, 1, 1]
      ≠ [1, 1, 1, 0] := by
  decide

/-- C8 (amended): `data_windowing` leaves the caller's `std_idx` array unchanged on
every call; the end-of-series zeroing is applied to a fresh copy (the filtered mask),
so whenever the call returns, the returned mask has its entries below
`upper_limit − overlap` preserved from the filtered copy and its entries at and after
that cut equal to 0. -/
theorem data_windowing_mask_pure (data : List Vec3) (labels chorea : List ℤ)
    (W O : ℕ) (stdIdx : List ℤ)
    (hcut : O ≤ data.length / (W - O) * (W - O)) :
    data_windowing_std_idx_after data labels chorea W O stdIdx = stdIdx ∧
    ∀ out, data_windowing data labels chorea W O stdIdx = Except.ok out →
      out.inclusionIdx.length = (stdIdx.filter (fun x => x == 1)).length ∧
      (∀ j, j < min (data.length / (W - O) * (W - O) - O)
          ((stdIdx.filter (fun x => x == 1)).length) →
        out.inclusionIdx[j]? = (stdIdx.filter (fun x => x == 1))[j]?) ∧
      (∀ j, data.length / (W - O) * (W - O) - O ≤ j →
        j < (stdIdx.filter (fun x => x == 1)).length →
        out.inclusionIdx[j]? = some 0) := by
  have hk : (0 : ℤ) ≤ ((data.length / (W - O) * (W - O) : ℕ) : ℤ) - (O : ℤ) := by
    omega
  have htn : (((data.length / (W - O) * (W - O) : ℕ) : ℤ) - (O : ℤ)).toNat
      = data.length / (W - O) * (W - O) - O := by omega
  refine ⟨rfl, ?_⟩
  intro out hok
  obtain ⟨hO, hW2, hWd, hWl, hWc, hc1, hl1, hout⟩ :=
    data_windowing_ok_cases data labels chorea W O stdIdx out hok
  subst hout
  refine ⟨?_, ?_, ?_⟩
  · show (zeroFromPy _ _).length = _
    rw [zeroFromPy_length]
  · intro j hj
    show (zeroFromPy _ _)[j]? = _
    exact zeroFromPy_getElem?_lt _ _ j hk (by rw [htn]; omega)
  · intro j hj1 hj2
    show (zeroFromPy _ _)[j]? = _
    exact zeroFromPy_getElem?_ge _ _ j hk (by rw [htn]; omega) hj2

/-- Witness for `data_windowing_mask_pure`: a successful call on 4 samples with
`W = 2`, `O = 1`: the caller's mask is unchanged, entry 0 of the returned mask is
preserved and entry 3 (at the cut `upper_limit − overlap = 3`) is zeroed. -/
theorem data_windowing_mask_pure_witness :
    data_windowing_std_idx_after (List.replicate 4 (((0:ℚ), (0:ℚ), (0:ℚ))))
        [0, 1, 0, 1] [0, 1, 2, 3] 2 1 [1, 1, 1, 1] = [1, 1, 1, 1] ∧
    (data_windowing (List.replicate 4 (((0:ℚ), (0:ℚ), (0:ℚ)))) [0, 1, 0, 1] [0, 1, 2, 3]
        2 1 [1, 1, 1, 1]).map (fun o => o.inclusionIdx[0]?)
      = Except.ok ((([1, 1, 1, 1] : List ℤ).filter (fun x => x == 1))[0]?) ∧
    (data_windowing (List.replicate 4 (((0:ℚ), (0:ℚ), (0:ℚ)))) [0, 1, 0, 1] [0, 1, 2, 3]
        2 1 [1, 1, 1, 1]).map (fun o => o.inclusionIdx[3]?) = Except.ok (some 0) := by
  have hm := data_windowing_mask_pure (List.replicate 4 (((0:ℚ), (0:ℚ), (0:ℚ))))
    [0, 1, 0, 1] [0, 1, 2, 3] 2 1 [1, 1, 1, 1] (by decide)
  have hs := data_windowing_succeeds (List.replicate 4 (((0:ℚ), (0:ℚ), (0:ℚ))))
    [0, 1, 0, 1] [0, 1, 2, 3] 2 1 [1, 1, 1, 1] (by decide) (by decide) (by decide)
    (by decide) (by decide)
  obtain ⟨hlen, hpres, hzero⟩ := hm.2 _ hs
  refine ⟨hm.1, ?_, ?_⟩
  · rw [hs]
    simp only [Except.map]
    exact congrArg Except.ok (hpres 0 (by decide))
  · rw [hs]
    simp only [Except.map]
    exact congrArg Except.ok (hzero 3 (by decide) (by decide))

/-! ## Rate Converter: `resample` (`src/preprocessing.py`, lines 109–128) -/

/-- Model of `scipy.signal.resample(x, num)` (an external SciPy routine, not part of
this repository): frequency-domain resampling is abstracted as index-rescaled
sampling.  The only property of the routine the repository relies on — and the only
one used below — is that the output has exactly `num` samples. -/
def scipyResample {α : Type} [Inhabited α] (xs : List α) (num : ℕ) : List α :=
  (List.range num).map (fun i => xs.getD (i * xs.length / num) default)

theorem scipyResample_length {α : Type} [Inhabited α] (xs : List α) (num : ℕ) :
    (scipyResample xs num).length = num := by
  simp [scipyResample]

/-- Embedding of `resample(data, labels, chorea, original_fs, target_fs)`
(`src/preprocessing.py`, lines 109–128): `resampling_factor = original_fs/target_fs`,
`num_samples = int(len(data)/resampling_factor)`; the signal and both label streams
(cast to float) are resampled to `num_samples` and the label streams are rounded back
to integers with `np.round`. -/
def resample (data : List Vec3) (labels chorea : List ℤ) (originalFs targetFs : ℚ) :
    List Vec3 × List ℤ × List ℤ :=
  let resamplingFactor := originalFs / targetFs
  let numSamples := (pyInt ((data.length : ℚ) / resamplingFactor)).toNat
  let resampledData := scipyResample data numSamples
  let resampledLabels := (scipyResample (labels.map (fun x => (x : ℚ))) numSamples).map npRound
  let resampledChorea := (scipyResample (chorea.map (fun x => (x : ℚ))) numSamples).map npRound
  (resampledData, resampledLabels, resampledChorea)

theorem pyInt_eq_floor (q : ℚ) (h : 0 ≤ q) : pyInt q = ⌊q⌋ := by
  simp only [pyInt, Rat.floor_def]
  exact Int.tdiv_eq_ediv (Rat.num_nonneg.mpr h) (by positivity)

/-- C7: for positive sampling rates and an equal-length input triple, `resample`
returns three streams of identical length `⌊original_length / (original_fs/target_fs)⌋`. -/
theorem resample_lengths (data : List Vec3) (labels chorea : List ℤ)
    (originalFs targetFs : ℚ) (hfo : 0 < originalFs) (hft : 0 < targetFs)
    (hl : labels.length = data.length) (hc : chorea.length = data.length) :
    (resample data labels chorea originalFs targetFs).1.length
      = (⌊(data.length : ℚ) / (originalFs / targetFs)⌋).toNat ∧
    (resample data labels chorea originalFs targetFs).2.1.length
      = (⌊(data.length : ℚ) / (originalFs / targetFs)⌋).toNat ∧
    (resample data labels chorea originalFs targetFs).2.2.length
      = (⌊(data.length : ℚ) / (originalFs / targetFs)⌋).toNat := by
  have hq : (0 : ℚ) ≤ (data.length : ℚ) / (originalFs / targetFs) :=
    div_nonneg (by positivity) (le_of_lt (div_pos hfo hft))
  have hnum : (pyInt ((data.length : ℚ) / (originalFs / targetFs))).toNat
      = (⌊(data.length : ℚ) / (originalFs / targetFs)⌋).toNat := by
    rw [pyInt_eq_floor _ hq]
  have h1 : (resample data labels chorea originalFs targetFs).1
      = scipyResample data ((pyInt ((data.length : ℚ) / (originalFs / targetFs))).toNat) := rfl
  have h2 : (resample data labels chorea originalFs targetFs).2.1
      = (scipyResample (labels.map (fun x => (x : ℚ)))
          ((pyInt ((data.length : ℚ) / (originalFs / targetFs))).toNat)).map npRound := rfl
  have h3 : (resample data labels chorea originalFs targetFs).2.2
      = (scipyResample (chorea.map (fun x => (x : ℚ)))
          ((pyInt ((data.length : ℚ) / (originalFs / targetFs))).toNat)).map npRound := rfl
  refine ⟨?_, ?_, ?_⟩
  · rw [h1, scipyResample_length, hnum]
  · rw [h2, List.length_map, scipyResample_length, hnum]
  · rw [h3, List.length_map, scipyResample_length, hnum]

/-- Witness for `resample_lengths`: 4 samples resampled from 2 Hz to 1 Hz give
`⌊4/2⌋ = 2` samples in each of the three streams. -/
theorem resample_lengths_witness :
    (resample (List.replicate 4 (((0:ℚ), (0:ℚ), (0:ℚ)))) [0, 1, 0, 1] [1, 2, 3, 4] 2 1).1.length = 2 ∧
    (resample (List.replicate 4 (((0:ℚ), (0:ℚ), (0:ℚ)))) [0, 1, 0, 1] [1, 2, 3, 4] 2 1).2.1.length = 2 ∧
    (resample (List.replicate 4 (((0:ℚ), (0:ℚ), (0:ℚ)))) [0, 1, 0, 1] [1, 2, 3, 4] 2 1).2.2.length = 2 := by
  have h := resample_lengths (List.replicate 4 (((0:ℚ), (0:ℚ), (0:ℚ)))) [0, 1, 0, 1] [1, 2, 3, 4]
    2 1 (by norm_num) (by norm_num) (by decide) (by decide)
  have e : (⌊(((List.replicate 4 (((0:ℚ), (0:ℚ), (0:ℚ)))).length : ℕ) : ℚ) / ((2:ℚ) / 1)⌋).toNat = 2 := by
    rw [List.length_replicate]
    have hf : ⌊(((4:ℕ) : ℚ)) / ((2:ℚ) / 1)⌋ = 2 := by norm_num
    rw [hf]
    rfl
  exact ⟨e ▸ h.1, e ▸ h.2.1, e ▸ h.2.2⟩

/-! ## Moving Statistics Engine: `movingstd` (`src/preprocessing.py`, lines 11–90) -/

/-- Windowmode validation of `movingstd` (`src/preprocessing.py`, lines 48–49):
`windowmode.lower()` must be one of the three full words
`'central'`, `'forward'`, `'backward'`. -/
def movingstdValidMode (windowmode : String) : Bool :=
  ["central", "forward", "backward"].contains (pyLower windowmode)

/-- Modelled from the spec (and from `movingstd`'s own docstring, lines 41–42):
the documented acceptance condition for the windowmode selector — any non-empty,
case-insensitive contraction of the three orientation words is valid, even a single
character. -/
def specModeAccepts (s : String) : Bool :=
  s.length != 0 &&
    (["central", "forward", "backward"].any (fun w => (pyLower s).data.isPrefixOf w.data))

noncomputable section

/-- NumPy `np.mean` of a 1-D array. -/
def npMean (xs : List ℝ) : ℝ := xs.sum / xs.length

/-- NumPy `np.std` of a 1-D array (population standard deviation, `ddof = 0`). -/
def npStd (xs : List ℝ) : ℝ := Real.sqrt (npMean (xs.map (fun x => (x - npMean xs) ^ 2)))

/-- Full discrete convolution `np.convolve(a, v)`. -/
def convFull (a v : List ℝ) : List ℝ :=
  (List.range (a.length + v.length - 1)).map (fun n =>
    ((List.range (n + 1)).map (fun i => a.getD i 0 * v.getD (n - i) 0)).sum)

/-- NumPy `np.convolve(a, v, mode='same')`: the centered `max (len a) (len v)`
samples of the full convolution. -/
def convSame (a v : List ℝ) : List ℝ :=
  ((convFull a v).drop ((min a.length v.length - 1) / 2)).take (max a.length v.length)

/-- Embedding of `movingstd(data, window_size, windowmode)` (`src/preprocessing.py`,
lines 11–90): validate the mode string and the window size, reduce the three channels
to a Euclidean magnitude, center and scale, then compute the windowed standard
deviation through box-filter convolutions; a `ValueError` becomes `Except.error`.
The `'forward'` and `'backward'` branches are transcribed separately, exactly as in
the source (lines 80–88), where both compute the same expression. -/
def movingstd (data : List (ℝ × ℝ × ℝ)) (window_size : ℕ) (windowmode : String) :
    Except String (List ℝ) :=
  if ¬ movingstdValidMode windowmode then
    .error "Windowmode must be a character flag, matching the allowed modes: 'c', 'b', or 'f'."
  else
    let wm := pyLower windowmode
    let n := data.length
    if window_size < 1 then
      .error "window_size must be an integer, at least 1 for a 'central' window, and at least 2 for 'forward' or 'backward'."
    else if (wm ≠ "central" ∧ window_size < 2) ∨ n < window_size then
      .error "window_size is too large for this short of a series."
    else
      let mag := data.map (fun p => Real.sqrt (p.1 ^ 2 + p.2.1 ^ 2 + p.2.2 ^ 2))
      let centered := mag.map (fun x => x - npMean mag)
      let dataStd := npStd centered
      let scaled := centered.map (fun x => x / dataStd)
      let data2 := scaled.map (fun x => x ^ 2)
      let s :=
        if wm = "central" then
          List.zipWith (fun a b =>
              Real.sqrt ((a - b ^ 2 * (1 / (2 * (window_size : ℝ) + 1)))
                / (2 * (window_size : ℝ))))
            (convSame data2 (List.replicate (2 * window_size + 1) 1))
            (convSame scaled (List.replicate (2 * window_size + 1) 1))
        else if wm = "forward" then
          List.zipWith (fun a b =>
              Real.sqrt ((a - b ^ 2 * (1 / (window_size : ℝ))) / ((window_size : ℝ) - 1)))
            (convSame data2 (List.replicate window_size 1))
            (convSame scaled (List.replicate window_size 1))
        else
          List.zipWith (fun a b =>
              Real.sqrt ((a - b ^ 2 * (1 / (window_size : ℝ))) / ((window_size : ℝ) - 1)))
            (convSame data2 (List.replicate window_size 1))
            (convSame scaled (List.replicate window_size 1))
      .ok (s.map (fun x => x * dataStd))

end

/-- C5 (code_bug evidence): the docstring of `movingstd` promises that any
case-insensitive contraction of the orientation words is accepted, "even as short as
a single character 'c', 'b', or 'f'", and its own error message lists those
single-character flags; the spec states the same.  The validation actually performed
compares `windowmode.lower()` against the three full words only, so the documented
single-character contraction `'c'` is rejected with the invalid-argument error. -/
theorem movingstd_contraction_rejected :
    specModeAccepts "c" = true ∧
    movingstdValidMode "c" = false ∧
    movingstd [((1:ℝ), 0, 0), (0, 1, 0), (0, 0, 1)] 2 "c"
      = .error "Windowmode must be a character flag, matching the allowed modes: 'c', 'b', or 'f'." := by
  refine ⟨by decide, by decide, ?_⟩
  rw [movingstd]
  rw [if_pos]
  rw [show movingstdValidMode "c" = false from by decide]
  simp

/-- C10: `movingstd` returns identical results for windowmode `'forward'` and
windowmode `'backward'` on every data array and window size: the two directional
branches validate identically and compute exactly the same expression (the
commented-out shift in the `'forward'` branch is dead, so nothing distinguishes
them). -/
theorem movingstd_forward_backward (data : List (ℝ × ℝ × ℝ)) (window_size : ℕ) :
    movingstd data window_size "forward" = movingstd data window_size "backward" := by
  have hvf : movingstdValidMode "forward" = true := by decide
  have hvb : movingstdValidMode "backward" = true := by decide
  have hf : pyLower "forward" = "forward" := by decide
  have hb : pyLower "backward" = "backward" := by decide
  have h1 : ("forward" : String) ≠ "central" := by decide
  have h2 : ("backward" : String) ≠ "central" := by decide
  have h3 : ("backward" : String) ≠ "forward" := by decide
  rw [movingstd, movingstd, hf, hb, hvf, hvb]
  simp [h1, h2, h3]
